import Mathlib

/-!
Verification of the Assasim distributed agent-based simulation runtime.

This file gives a shallow embedding of the master's per-step execution engine
(src/precompilation/simulation_basis/master.cpp and the utility containers it
uses) and proves properties of that embedding.  C++ unordered maps are
modelled as association lists, std containers' `.at` accesses (which throw
std::out_of_range) are modelled with Except, and machine integers are
modelled as Nat (all the quantities involved -- ids, sizes, offsets, counts --
are unsigned and no overflowing arithmetic occurs on the verified paths).
-/

namespace Assasim

/-- Association-list lookup, modelling std::unordered_map::find
    (returns none when the key is absent). -/
def lookupEq {κ ν : Type} [DecidableEq κ] : κ → List (κ × ν) → Option ν
  | _, [] => none
  | k, (k', v) :: rest => if k = k' then some v else lookupEq k rest

/-- Association-list overwrite-or-insert, modelling
    utils::thread_safe_unordered_map::set (master.cpp uses it for the
    attribute-read cache): overwrites the value when the key is present,
    appends the binding otherwise. -/
def setAssoc {κ ν : Type} [DecidableEq κ] : List (κ × ν) → κ → ν → List (κ × ν)
  | [], k, v => [(k, v)]
  | (k', v') :: rest, k, v =>
      if k = k' then (k', v) :: rest else (k', v') :: setAssoc rest k v

/-- Association-list insert-if-absent, modelling std::unordered_map::insert
    (which does not overwrite an existing binding). -/
def insertNew {κ ν : Type} [DecidableEq κ] (m : List (κ × ν)) (k : κ) (v : ν) :
    List (κ × ν) :=
  if (lookupEq k m).isSome then m else m ++ [(k, v)]

/-- Errors raised by the embedded code: the AgentNotFound exception of
    types.hpp, and std::out_of_range as thrown by the containers' at(). -/
inductive Err where
  | agentNotFound (id : Nat) (typeName : String)
  | outOfRange (what : String)
deriving DecidableEq, Repr

/-- Vector access modelling std::vector::at, which throws std::out_of_range
    when the index is out of bounds. -/
def atVec {α : Type} (l : List α) (i : Nat) (what : String) : Except Err α :=
  match l.get? i with
  | some x => .ok x
  | none => .error (.outOfRange what)

/-- Map access modelling std::unordered_map::at / std::map::at, which throw
    std::out_of_range when the key is absent. -/
def atMap {κ ν : Type} [DecidableEq κ] (m : List (κ × ν)) (k : κ) (what : String) :
    Except Err ν :=
  match lookupEq k m with
  | some v => .ok v
  | none => .error (.outOfRange what)

/-- Master::LocalToGlobalId (master.cpp:396): nb_types_*id + type, computed
    in uint64_t (AgentId, AgentType and AgentGlobalId are all uint64_t,
    types.hpp:38-48), so the multiply-add wraps modulo 2^64. -/
def LocalToGlobalId (nb_types id type : Nat) : Nat :=
  (nb_types * id + type) % 2 ^ 64

/-- Master::GlobalToLocalId (master.cpp:401): id / nb_types_ (uint64_t
    division of in-range operands never wraps). -/
def GlobalToLocalId (nb_types id : Nat) : Nat := id / nb_types

/-- Master::GlobalToLocalType (master.cpp:406): id % nb_types_ (uint64_t
    remainder of in-range operands never wraps). -/
def GlobalToLocalType (nb_types id : Nat) : Nat := id % nb_types

/-!
The scratch arena utils::custom_heap (utils/custom_heap.hpp).

The C++ class keeps one malloc'd block data_ of capacity_ bytes, of which the
first size_ bytes are handed out; allocate returns data_+size_ when the
request fits, and otherwise grows the block with malloc (when data_ is null)
or realloc.  A call to realloc invalidates every pointer previously handed
out from the block (and in general moves the bytes).  We model the identity
of the current block by a generation counter gen, bumped whenever malloc or
realloc produces a (potentially) different block, and a handed-out pointer by
the pair (generation of the block it points into, byte offset).
-/

/-- Pointer into the scratch arena: block generation plus byte offset. -/
structure HeapPtr where
  gen : Nat
  off : Nat
deriving DecidableEq, Repr

/-- State of utils::custom_heap: whether data_ is null, the identity of the
    current block, size_ and capacity_. -/
structure custom_heap where
  isNull : Bool
  gen : Nat
  size_ : Nat
  capacity_ : Nat
deriving DecidableEq, Repr

/-- The default-constructed custom_heap (data_ = nullptr, size_ = 0,
    capacity_ = 0). -/
def custom_heap.mkEmpty : custom_heap :=
  { isNull := true, gen := 0, size_ := 0, capacity_ := 0 }

/-- custom_heap::allocate (custom_heap.hpp:52).  Returns the pointer handed
    out and the new heap state.  The malloc and realloc branches bump the
    generation: realloc invalidates (and may relocate) every pointer
    previously returned from the block. -/
def custom_heap.allocate (h : custom_heap) (size : Nat) : HeapPtr × custom_heap :=
  if h.size_ + size ≤ h.capacity_ then
    (⟨h.gen, h.size_⟩, { h with size_ := h.size_ + size })
  else if h.isNull then
    (⟨h.gen + 1, 0⟩,
     { isNull := false, gen := h.gen + 1, size_ := size, capacity_ := size })
  else
    let new_capacity := if h.size_ + size > h.capacity_ * 2
                        then h.size_ + size else h.capacity_ * 2
    (⟨h.gen + 1, h.size_⟩,
     { isNull := false, gen := h.gen + 1, size_ := h.size_ + size,
       capacity_ := new_capacity })

/-- custom_heap::clear (custom_heap.hpp:103): size_ = 0; the block is kept
    (memory reused, not freed). -/
def custom_heap.clear (h : custom_heap) : custom_heap := { h with size_ := 0 }

/-- A handed-out pointer is still valid exactly when the block it points
    into is the heap's current block. -/
def custom_heap.validPtr (h : custom_heap) (p : HeapPtr) : Bool := p.gen == h.gen

/-- Counterexample to C9 as stated: the encoder wraps modulo 2^64, so over
    its whole uint64 domain it is neither injective nor inverted by the
    decoders: with T = 2 the distinct pairs (2^63, 0) and (0, 0) share
    global id 0, and GlobalToLocalId returns 0, not 2^63. -/
theorem global_id_encoding_wraps :
    LocalToGlobalId 2 (2 ^ 63) 0 = LocalToGlobalId 2 0 0 ∧
    (0 : Nat) < 2 ∧ (2 : Nat) ^ 63 ≠ 0 ∧
    GlobalToLocalId 2 (LocalToGlobalId 2 (2 ^ 63) 0) ≠ 2 ^ 63 := by
  refine ⟨by decide, by decide, by decide, by decide⟩

/-- Claim C9 (amended): with T the number of agent types, LocalToGlobalId
    computes (i*T + t) mod 2^64; for t, t' < T and encodings free of uint64
    wraparound (T*i + t < 2^64) it equals i*T + t, the decoders invert it,
    and distinct such pairs get distinct global ids. -/
theorem global_id_encoding_bijective (T i t i' t' : Nat)
    (ht : t < T) (ht' : t' < T)
    (hov : T * i + t < 2 ^ 64) (hov' : T * i' + t' < 2 ^ 64) :
    LocalToGlobalId T i t = i * T + t ∧
    GlobalToLocalId T (LocalToGlobalId T i t) = i ∧
    GlobalToLocalType T (LocalToGlobalId T i t) = t ∧
    (LocalToGlobalId T i t = LocalToGlobalId T i' t' → i = i' ∧ t = t') := by
  have hT : 0 < T := Nat.lt_of_le_of_lt (Nat.zero_le t) ht
  have hm : LocalToGlobalId T i t = T * i + t := by
    unfold LocalToGlobalId
    exact Nat.mod_eq_of_lt hov
  have hm' : LocalToGlobalId T i' t' = T * i' + t' := by
    unfold LocalToGlobalId
    exact Nat.mod_eq_of_lt hov'
  refine ⟨by rw [hm, Nat.mul_comm], ?_, ?_, ?_⟩
  · rw [hm]
    show (T * i + t) / T = i
    rw [Nat.mul_add_div hT, Nat.div_eq_of_lt ht, Nat.add_zero]
  · rw [hm]
    show (T * i + t) % T = t
    rw [Nat.mul_add_mod, Nat.mod_eq_of_lt ht]
  · intro h
    rw [hm, hm'] at h
    have hi : i = i' := by
      have h1 : (T * i + t) / T = (T * i' + t') / T := congrArg (fun x => x / T) h
      rwa [Nat.mul_add_div hT, Nat.div_eq_of_lt ht, Nat.add_zero,
        Nat.mul_add_div hT, Nat.div_eq_of_lt ht', Nat.add_zero] at h1
    refine ⟨hi, ?_⟩
    have h2 : (T * i + t) % T = (T * i' + t') % T := congrArg (fun x => x % T) h
    rwa [Nat.mul_add_mod, Nat.mod_eq_of_lt ht,
      Nat.mul_add_mod, Nat.mod_eq_of_lt ht'] at h2

/-- Witness for the amended C9 at T = 3, (i, t) = (4, 2), (i', t') = (4, 1),
    both encodings far below 2^64. -/
theorem global_id_encoding_bijective_witness :
    2 < 3 ∧ 1 < 3 ∧ 3 * 4 + 2 < 2 ^ 64 ∧ 3 * 4 + 1 < 2 ^ 64 ∧
    (LocalToGlobalId 3 4 2 = 4 * 3 + 2 ∧
     GlobalToLocalId 3 (LocalToGlobalId 3 4 2) = 4 ∧
     GlobalToLocalType 3 (LocalToGlobalId 3 4 2) = 2 ∧
     (LocalToGlobalId 3 4 2 = LocalToGlobalId 3 4 1 → 4 = 4 ∧ 2 = 1)) :=
  ⟨by decide, by decide, by decide, by decide,
   global_id_encoding_bijective 3 4 2 4 1 (by decide) (by decide)
     (by decide) (by decide)⟩

/-- Claim C6 (code bug): growing the scratch arena relocates bytes already
    handed out in the same step.  Starting from the default-constructed heap,
    allocate(16) hands out a pointer that is valid, but a subsequent
    allocate(1) exceeds the capacity and goes through the realloc branch of
    custom_heap::allocate, after which the first pointer no longer points
    into the heap's current block: the cached attribute pointers of
    received_public_attributes_ dangle. -/
theorem arena_realloc_invalidates_earlier_pointer :
    ((custom_heap.mkEmpty.allocate 16).2.validPtr
        (custom_heap.mkEmpty.allocate 16).1 = true) ∧
    ((((custom_heap.mkEmpty.allocate 16).2.allocate 1).2.validPtr
        (custom_heap.mkEmpty.allocate 16).1) = false) := by
  decide

/-!
The master's data (master.hpp).  Only the fields the verified routines touch
are carried.  Attribute values are byte lists; MPI_Datatype handles are
abstract Nat tokens.  The ghost fields fetches and warnings record the
observable effects the claims speak about: the MPI_Get calls issued by
Master::GetPublicAttribute and the warnings printed by
Master::PushInteraction.
-/

/-- An interaction (interaction.hpp): type, sender and recipient identity.
    The typed payload is irrelevant to the routed bookkeeping and is carried
    as an opaque token. -/
structure Interaction where
  type_ : Nat
  sender_id_ : Nat
  sender_type_ : Nat
  recipient_id_ : Nat
  recipient_type_ : Nat
  payload : Nat
deriving DecidableEq, Repr

/-- The per-agent state a master holds: the agent's attribute bytes
    (attribute id to byte contents) and its received-interactions list
    (Agent::ReceiveMessage appends to it, Agent::ResetMessages clears it). -/
structure AgentState where
  attributes : List (Nat × List Nat)
  received : List Interaction
deriving DecidableEq, Repr

/-- A location returned by the attribute-read path: either a pointer into the
    local critical-window replica (begin_critical_window_ + offset) or a
    pointer into the per-step scratch arena. -/
inductive Loc where
  | criticalWin (off : Nat)
  | heapPtr (p : HeapPtr)
deriving DecidableEq, Repr

/-- Phases of the time step, as logged by the embedded Master routines.
    barrier is Master::Synchronize (MPI_Barrier on MasterComm_). -/
inductive Phase where
  | publish
  | exchange
  | distribute
  | behaviors
  | barrier
deriving DecidableEq, Repr

/-- The fields of class Master (master.hpp) used by the verified routines,
    with a ghost phase log and ghost fetch/warning records. -/
structure MasterData where
  step_ : Nat
  period_ : Nat
  id_ : Nat
  nb_masters_ : Nat
  nb_types_ : Nat
  nb_interactions_ : Nat
  agent_ids_by_types_ : List (List Nat)
  masters_ : List (Nat × Nat)
  agents_ : List (Nat × AgentState)
  critical_attributes_ : List (Nat × Nat)
  attributes_sizes_ : List ((Nat × Nat) × Nat)
  attributes_MPI_types_ : List ((Nat × Nat) × Nat)
  public_attributes_offsets_ : List ((Nat × Nat) × Nat)
  public_agents_offsets_ : List (Nat × Nat)
  public_attributes_struct_sizes_ : List (Nat × Nat)
  critical_attributes_offsets_ : List ((Nat × Nat) × Nat)
  critical_agents_offsets_ : List (Nat × Nat)
  critical_attributes_struct_sizes_ : List (Nat × Nat)
  agent_type_to_string_ : List (Nat × String)
  interactions_to_send_ : List (List Interaction)
  received_interactions_ : List Interaction
  received_public_attributes_ : List ((Nat × Nat) × HeapPtr)
  stored_public_attributes_ : custom_heap
  warnings : Nat
  fetches : List (Nat × Nat)
  log : List Phase
deriving DecidableEq, Repr

namespace MasterData

/-- Master::DoesAgentExist (master.cpp:104):
    agent_ids_by_types_.at(type).find(id) != end.  The at() throws
    std::out_of_range when the type index is out of bounds. -/
def DoesAgentExist (st : MasterData) (id type : Nat) : Except Err Bool :=
  match atVec st.agent_ids_by_types_ type "agent_ids_by_types_.at" with
  | .error e => .error e
  | .ok s => .ok (s.contains id)

/-- Master::IsCritical (master.cpp:425): membership of (type, attr) in
    critical_attributes_. -/
def IsCritical (st : MasterData) (attr type : Nat) : Bool :=
  st.critical_attributes_.contains (type, attr)

/-- Master::IsAttributeSendable (master.cpp:435):
    attributes_sizes_.find(std::make_pair(attr, type)) != end.  Note the
    lookup key is the pair in the order (attr, type) although the map is
    keyed by (agent type, attribute) pairs. -/
def IsAttributeSendable (st : MasterData) (attr type : Nat) : Bool :=
  (lookupEq (attr, type) st.attributes_sizes_).isSome

/-- Master::HasReceivedAttribute (master.cpp:440):
    received_public_attributes_.get_if_exists((id, attr)). -/
def HasReceivedAttribute (st : MasterData) (attr id : Nat) : Option HeapPtr :=
  lookupEq (id, attr) st.received_public_attributes_

/-- Master::PublicTargetDisp (master.cpp:125):
    public_agents_offsets_.at(id) + public_attributes_offsets_.at((type, attr)). -/
def PublicTargetDisp (st : MasterData) (id attr : Nat) : Except Err Nat :=
  match atMap st.public_agents_offsets_ id "public_agents_offsets_.at" with
  | .error e => .error e
  | .ok a =>
    match atMap st.public_attributes_offsets_
        (GlobalToLocalType st.nb_types_ id, attr) "public_attributes_offsets_.at" with
    | .error e => .error e
    | .ok b => .ok (a + b)

/-- Master::GetPublicAttribute (master.cpp:650).  On a cache hit the cached
    location is returned and nothing else happens; on a miss the remote
    master and MPI datatype are looked up, the target displacement computed,
    a slot of the attribute's size is taken from the scratch arena, the
    location is recorded in the cache, and a one-sided MPI_Get is issued
    (recorded in the ghost fetch log). -/
def GetPublicAttribute (st : MasterData) (attr recipient : Nat) :
    Except Err (Loc × MasterData) :=
  match st.HasReceivedAttribute attr recipient with
  | some location => .ok (.heapPtr location, st)
  | none =>
    match atMap st.masters_ recipient "masters_.at" with
    | .error e => .error e
    | .ok _master_recipient_id =>
      match atMap st.attributes_MPI_types_
          (GlobalToLocalType st.nb_types_ recipient, attr)
          "attributes_MPI_types_.at" with
      | .error e => .error e
      | .ok _MPI_attr_type =>
        match st.PublicTargetDisp recipient attr with
        | .error e => .error e
        | .ok _target_disp =>
          match atMap st.attributes_sizes_
              (GlobalToLocalType st.nb_types_ recipient, attr)
              "attributes_sizes_.at" with
          | .error e => .error e
          | .ok sz =>
            .ok (.heapPtr (st.stored_public_attributes_.allocate sz).1,
                 { st with
                   stored_public_attributes_ :=
                     (st.stored_public_attributes_.allocate sz).2,
                   received_public_attributes_ :=
                     setAssoc st.received_public_attributes_
                       (recipient, attr) (st.stored_public_attributes_.allocate sz).1,
                   fetches := st.fetches ++ [(recipient, attr)] })

/-- Master::GetCriticalAttribute (master.cpp:670): a pointer into the local
    critical-window replica at
    critical_agents_offsets_.at(recipient) +
    critical_attributes_offsets_.at((type, attr)). -/
def GetCriticalAttribute (st : MasterData) (attr recipient : Nat) :
    Except Err Loc :=
  match atMap st.critical_agents_offsets_ recipient
      "critical_agents_offsets_.at" with
  | .error e => .error e
  | .ok a =>
    match atMap st.critical_attributes_offsets_
        (GlobalToLocalType st.nb_types_ recipient, attr)
        "critical_attributes_offsets_.at" with
    | .error e => .error e
    | .ok b => .ok (.criticalWin (a + b))

/-- Master::GetAttribute (master.cpp:136).  Raises AgentNotFound (whose
    message is built from agent_type_to_string_.at) when the agent does not
    exist, otherwise dispatches on IsCritical to the critical or the public
    read path. -/
def GetAttribute (st : MasterData) (attr recipient_id recipient_type : Nat) :
    Except Err (Loc × MasterData) :=
  match st.DoesAgentExist recipient_id recipient_type with
  | .error e => .error e
  | .ok ex =>
    if !ex then
      match atMap st.agent_type_to_string_ recipient_type
          "agent_type_to_string_.at" with
      | .error e => .error e
      | .ok name => .error (.agentNotFound recipient_id name)
    else if st.IsCritical attr recipient_type then
      match st.GetCriticalAttribute attr
          (LocalToGlobalId st.nb_types_ recipient_id recipient_type) with
      | .error e => .error e
      | .ok loc => .ok (loc, st)
    else
      st.GetPublicAttribute attr
        (LocalToGlobalId st.nb_types_ recipient_id recipient_type)

/-- Master::PushInteraction (master.cpp:159).  When the recipient exists the
    interaction is appended to the outbox bucket
    interactions_to_send_.at(recipient_master*nb_interactions_ + type);
    otherwise a warning is printed to std::cerr (its text is built with
    agent_type_to_string_.at on the sender and recipient types) and the
    interaction is discarded. -/
def PushInteraction (st : MasterData) (inter : Interaction) : Except Err MasterData :=
  let type := inter.type_
  let recipient_id := LocalToGlobalId st.nb_types_ inter.recipient_id_ inter.recipient_type_
  match st.DoesAgentExist inter.recipient_id_ inter.recipient_type_ with
  | .error e => .error e
  | .ok ex =>
    if ex then
      match atMap st.masters_ recipient_id "masters_.at" with
      | .error e => .error e
      | .ok recipient_master =>
        match st.interactions_to_send_[recipient_master * st.nb_interactions_ + type]? with
        | none => .error (.outOfRange "interactions_to_send_.at")
        | some bucket =>
          .ok { st with
                interactions_to_send_ :=
                  st.interactions_to_send_.set
                    (recipient_master * st.nb_interactions_ + type)
                    (bucket ++ [inter]) }
    else
      match atMap st.agent_type_to_string_ inter.sender_type_
          "agent_type_to_string_.at" with
      | .error e => .error e
      | .ok _ =>
        match atMap st.agent_type_to_string_ inter.recipient_type_
            "agent_type_to_string_.at" with
        | .error e => .error e
        | .ok _ => .ok { st with warnings := st.warnings + 1 }

end MasterData

/-- The point-to-point message the coordinator sends to the owner in
    Master::ModifyAttribute when the recipient's master is not master 0:
    first the attribute identifier, then the new value. -/
structure SentModify where
  dest : Nat
  attr : Nat
  value : List Nat
deriving DecidableEq, Repr

/-- Master::ModifyAttribute (master.cpp:213) as executed by the coordinator
    (id_ == 0): validate the agent type, IsAttributeSendable, and existence
    (returning with the state unchanged and nothing sent when a check
    fails), broadcast the order and the recipient global id, and then either
    send (attr, value) to the owner (recipient_master != 0) or memcpy the
    value into the local agent's attribute (recipient_master == 0). -/
def coordinatorModifyAttribute (st : MasterData)
    (attr agent_id agent_type : Nat) (location : List Nat) :
    Except Err (MasterData × Option SentModify) :=
  if st.nb_types_ ≤ agent_type then .ok (st, none)
  else if !(st.IsAttributeSendable attr agent_type) then .ok (st, none)
  else
    match st.DoesAgentExist agent_id agent_type with
    | .error e => .error e
    | .ok ex =>
      if !ex then .ok (st, none)
      else
        let recipient_global_id := LocalToGlobalId st.nb_types_ agent_id agent_type
        match atMap st.masters_ recipient_global_id "masters_.at" with
        | .error e => .error e
        | .ok recipient_master =>
          if recipient_master ≠ 0 then
            .ok (st, some ⟨recipient_master, attr, location⟩)
          else
            match lookupEq recipient_global_id st.agents_ with
            | none => .error (.outOfRange "agents_.at")
            | some ag =>
              match atMap st.attributes_sizes_
                  (GlobalToLocalType st.nb_types_ recipient_global_id, attr)
                  "attributes_sizes_.at" with
              | .error e => .error e
              | .ok sz =>
                .ok ({ st with
                       agents_ := setAssoc st.agents_ recipient_global_id
                         { ag with attributes :=
                             setAssoc ag.attributes attr (location.take sz) } },
                     none)

/-- What a follower master ends up doing inside Master::ModifyAttribute. -/
inductive FollowerOutcome where
  /-- The follower received (attr, value) from master 0 and stored them into
      its local copy of the agent. -/
  | committed (st : MasterData)
  /-- The follower posted an MPI_Recv from master 0 that is never matched by
      a send: master 0 only sends to the recipient's master. -/
  | blockedInRecv
  /-- The follower raised std::out_of_range or executed memcpy with a null
      source. -/
  | crashed (what : String)
deriving DecidableEq, Repr

/-- Master::ModifyAttribute (master.cpp:213) as executed by a follower
    (id_ != 0), which enters it from WaitOrderFromRoot with the default
    arguments attr = 0, agent_id = 0, agent_type = 0, location = nullptr.
    bgid is the recipient global id received by broadcast; sent is
    some (attr, value) exactly when master 0's two point-to-point sends
    target this master.  Note that the pair p used for the MPI-datatype and
    size lookups is (GlobalToLocalType(bgid), attr) with attr left at its
    default value 0 on a follower. -/
def followerModifyAttribute (st : MasterData) (bgid : Nat)
    (sent : Option (Nat × List Nat)) : FollowerOutcome :=
  match lookupEq bgid st.masters_ with
  | none => .crashed "masters_.at"
  | some recipient_master =>
    if recipient_master ≠ 0 then
      match lookupEq (GlobalToLocalType st.nb_types_ bgid, 0)
          st.attributes_MPI_types_ with
      | none => .crashed "attributes_MPI_types_.at"
      | some _ =>
        match sent with
        | none => .blockedInRecv
        | some (attribute_to_modify, value) =>
          match lookupEq bgid st.agents_ with
          | none => .crashed "agents_.at"
          | some ag =>
            .committed { st with
              agents_ := setAssoc st.agents_ bgid
                { ag with attributes :=
                    setAssoc ag.attributes attribute_to_modify value } }
    else
      match lookupEq bgid st.agents_ with
      | none => .crashed "agents_.at"
      | some _ =>
        match lookupEq (GlobalToLocalType st.nb_types_ bgid, 0)
            st.attributes_sizes_ with
        | none => .crashed "attributes_sizes_.at"
        | some _ => .crashed "memcpy with location == nullptr"

/-!
Lemmas about the association-list operations.
-/

theorem lookupEq_isSome_iff {κ ν : Type} [DecidableEq κ] (k : κ) (m : List (κ × ν)) :
    (lookupEq k m).isSome ↔ k ∈ m.map Prod.fst := by
  induction m with
  | nil => simp [lookupEq]
  | cons p rest ih =>
    obtain ⟨k', v⟩ := p
    by_cases h : k = k' <;> simp [lookupEq, h, ih]

theorem lookupEq_setAssoc_self {κ ν : Type} [DecidableEq κ]
    (m : List (κ × ν)) (k : κ) (v : ν) :
    lookupEq k (setAssoc m k v) = some v := by
  induction m with
  | nil => simp [setAssoc, lookupEq]
  | cons p rest ih =>
    obtain ⟨k', v'⟩ := p
    by_cases h : k = k' <;> simp [setAssoc, lookupEq, h, ih]

theorem lookupEq_setAssoc_ne {κ ν : Type} [DecidableEq κ]
    (m : List (κ × ν)) (k k' : κ) (v : ν) (h : k' ≠ k) :
    lookupEq k' (setAssoc m k v) = lookupEq k' m := by
  induction m with
  | nil => simp [setAssoc, lookupEq, h]
  | cons p rest ih =>
    obtain ⟨k₀, v₀⟩ := p
    by_cases h₀ : k = k₀
    · subst h₀
      simp [setAssoc, lookupEq, h]
    · by_cases h₁ : k' = k₀ <;> simp [setAssoc, lookupEq, h₀, h₁, ih]

theorem atMap_ok_iff {κ ν : Type} [DecidableEq κ]
    (m : List (κ × ν)) (k : κ) (s : String) (v : ν) :
    atMap m k s = .ok v ↔ lookupEq k m = some v := by
  cases h : lookupEq k m <;> simp [atMap, h]

/-- A master with every container empty, used as the base of the concrete
    states in the witnesses below. -/
def emptyMaster : MasterData :=
  { step_ := 0, period_ := 1, id_ := 0, nb_masters_ := 1, nb_types_ := 1,
    nb_interactions_ := 1, agent_ids_by_types_ := [[]], masters_ := [],
    agents_ := [], critical_attributes_ := [], attributes_sizes_ := [],
    attributes_MPI_types_ := [], public_attributes_offsets_ := [],
    public_agents_offsets_ := [], public_attributes_struct_sizes_ := [],
    critical_attributes_offsets_ := [], critical_agents_offsets_ := [],
    critical_attributes_struct_sizes_ := [], agent_type_to_string_ := [],
    interactions_to_send_ := [[]], received_interactions_ := [],
    received_public_attributes_ := [],
    stored_public_attributes_ := custom_heap.mkEmpty,
    warnings := 0, fetches := [], log := [] }

/-- Claim C10: IsAttributeSendable(attr, t) holds exactly when the
    attribute-size catalog, keyed by (agent type, attribute) pairs, contains
    a key whose agent-type component is attr and whose attribute component
    is t -- the lookup passes the pair in the order (attr, t) -- and a false
    answer makes the coordinator's MODIFY_ATTRIBUTE validation reject the
    order with the state unchanged and nothing sent. -/
theorem is_attribute_sendable_iff (st : MasterData) (attr t : Nat) :
    (st.IsAttributeSendable attr t = true ↔
      (attr, t) ∈ st.attributes_sizes_.map Prod.fst) ∧
    (t < st.nb_types_ → st.IsAttributeSendable attr t = false →
      ∀ agent_id location,
        coordinatorModifyAttribute st attr agent_id t location = .ok (st, none)) := by
  constructor
  · simpa [MasterData.IsAttributeSendable] using
      lookupEq_isSome_iff (attr, t) st.attributes_sizes_
  · intro ht hsend agent_id location
    simp [coordinatorModifyAttribute, Nat.not_le_of_lt ht, hsend]

/-- Concrete master whose attribute-size catalog holds the single key
    (2, 5), for the C10 witness. -/
def sendableExample : MasterData :=
  { emptyMaster with nb_types_ := 6, attributes_sizes_ := [((2, 5), 4)] }

/-- Witness for C10 on sendableExample: the lookup characterization holds
    for (attr, t) = (2, 5) and the validation rejects (attr, t) = (5, 2). -/
theorem is_attribute_sendable_iff_witness :
    (sendableExample.IsAttributeSendable 2 5 = true ↔
      ((2 : Nat), (5 : Nat)) ∈ sendableExample.attributes_sizes_.map Prod.fst) ∧
    (coordinatorModifyAttribute sendableExample 5 0 2 [1] =
      .ok (sendableExample, none)) :=
  ⟨(is_attribute_sendable_iff sendableExample 2 5).1,
   (is_attribute_sendable_iff sendableExample 5 2).2 (by decide) (by decide) 0 [1]⟩

/-- Claim C4: a pushed interaction whose recipient exists is appended to
    exactly the outbox bucket indexed by
    recipient_master * nb_interactions_ + interaction type (all other
    buckets and the warning count unchanged); a pushed interaction whose
    recipient does not exist leaves every bucket unchanged and emits a
    warning. -/
theorem push_interaction_routes_or_drops (st st' : MasterData) (inter : Interaction)
    (h : st.PushInteraction inter = .ok st') :
    (st.DoesAgentExist inter.recipient_id_ inter.recipient_type_ = .ok true →
      ∃ m bucket,
        lookupEq (LocalToGlobalId st.nb_types_ inter.recipient_id_ inter.recipient_type_)
            st.masters_ = some m ∧
        st.interactions_to_send_[m * st.nb_interactions_ + inter.type_]? = some bucket ∧
        st'.interactions_to_send_[m * st.nb_interactions_ + inter.type_]? =
          some (bucket ++ [inter]) ∧
        (∀ j, j ≠ m * st.nb_interactions_ + inter.type_ →
          st'.interactions_to_send_[j]? = st.interactions_to_send_[j]?) ∧
        st'.warnings = st.warnings) ∧
    (st.DoesAgentExist inter.recipient_id_ inter.recipient_type_ = .ok false →
      st'.interactions_to_send_ = st.interactions_to_send_ ∧
      st'.warnings = st.warnings + 1) := by
  constructor
  · intro hex
    simp [MasterData.PushInteraction, hex] at h
    split at h
    next e heq => exact absurd h (by simp)
    next m hm =>
      split at h
      next heqb => exact absurd h (by simp)
      next bucket hb =>
        injection h with h
        subst h
        refine ⟨m, bucket, (atMap_ok_iff _ _ _ _).1 hm, hb, ?_, ?_, ?_⟩
        · have hlt : m * st.nb_interactions_ + inter.type_ <
              st.interactions_to_send_.length :=
            (List.getElem?_eq_some_iff.1 hb).1
          simp [List.getElem?_set_self hlt]
        · intro j hj
          simp [List.getElem?_set_ne (Ne.symm hj)]
        · simp
  · intro hex
    simp [MasterData.PushInteraction, hex] at h
    split at h
    next e h1 => exact absurd h (by simp)
    next n1 h1 =>
      split at h
      next e h2 => exact absurd h (by simp)
      next n2 h2 =>
        injection h with h
        subst h
        simp

/-- Concrete master for the C4 witness: two masters, two interaction types;
    one agent of type 0 with local id 1 owned by master 1. -/
def pushExample : MasterData :=
  { emptyMaster with
    nb_masters_ := 2, nb_types_ := 1, nb_interactions_ := 2,
    agent_ids_by_types_ := [[1]],
    masters_ := [(1, 1)],
    agent_type_to_string_ := [(0, "A")],
    interactions_to_send_ := [[], [], [], []] }

/-- The interaction pushed in the C4 witness: type 1, recipient (1, 0). -/
def pushExampleInter : Interaction :=
  { type_ := 1, sender_id_ := 0, sender_type_ := 0,
    recipient_id_ := 1, recipient_type_ := 0, payload := 0 }

/-- The master state after the C4 witness push. -/
def pushExampleResult : MasterData :=
  (pushExample.PushInteraction pushExampleInter).toOption.getD pushExample

/-- Witness for C4: on pushExample the recipient exists, and the theorem
    yields the appended bucket at index 1*2 + 1 = 3. -/
theorem push_interaction_routes_or_drops_witness :
    pushExample.DoesAgentExist pushExampleInter.recipient_id_
      pushExampleInter.recipient_type_ = .ok true ∧
    ∃ m bucket,
      lookupEq (LocalToGlobalId pushExample.nb_types_ pushExampleInter.recipient_id_
          pushExampleInter.recipient_type_) pushExample.masters_ = some m ∧
      pushExample.interactions_to_send_[m * pushExample.nb_interactions_ +
          pushExampleInter.type_]? = some bucket ∧
      pushExampleResult.interactions_to_send_[m * pushExample.nb_interactions_ +
          pushExampleInter.type_]? = some (bucket ++ [pushExampleInter]) ∧
      pushExampleResult.warnings = pushExample.warnings := by
  refine ⟨by rfl, ?_⟩
  obtain ⟨m, bucket, h1, h2, h3, _, h5⟩ :=
    (push_interaction_routes_or_drops pushExample pushExampleResult
      pushExampleInter (by rfl)).1 (by rfl)
  exact ⟨m, bucket, h1, h2, h3, h5⟩

/-- Discriminator for the AgentNotFound exception on the read path. -/
def errIsAgentNotFound {α : Type} : Except Err α → Bool
  | .error (.agentNotFound _ _) => true
  | _ => false

theorem atMap_error_out_of_range {κ ν : Type} [DecidableEq κ]
    (m : List (κ × ν)) (k : κ) (s : String) (e : Err)
    (h : atMap m k s = .error e) : e = .outOfRange s := by
  cases hl : lookupEq k m
  · simp [atMap, hl] at h
    exact h.symm
  · simp [atMap, hl] at h

theorem publicTargetDisp_error_out_of_range (st : MasterData) (id attr : Nat)
    (e : Err) (h : st.PublicTargetDisp id attr = .error e) :
    ∃ s, e = .outOfRange s := by
  unfold MasterData.PublicTargetDisp at h
  split at h
  next e' heq =>
    obtain rfl : e' = e := Except.error.inj h
    exact ⟨_, atMap_error_out_of_range _ _ _ _ heq⟩
  next a heq =>
    split at h
    next e' heq2 =>
      obtain rfl : e' = e := Except.error.inj h
      exact ⟨_, atMap_error_out_of_range _ _ _ _ heq2⟩
    next b heq2 => exact absurd h (by simp)

theorem getCriticalAttribute_error_out_of_range (st : MasterData)
    (attr g : Nat) (e : Err) (h : st.GetCriticalAttribute attr g = .error e) :
    ∃ s, e = .outOfRange s := by
  unfold MasterData.GetCriticalAttribute at h
  split at h
  next e' heq =>
    obtain rfl : e' = e := Except.error.inj h
    exact ⟨_, atMap_error_out_of_range _ _ _ _ heq⟩
  next a heq =>
    split at h
    next e' heq2 =>
      obtain rfl : e' = e := Except.error.inj h
      exact ⟨_, atMap_error_out_of_range _ _ _ _ heq2⟩
    next b heq2 => exact absurd h (by simp)

theorem getPublicAttribute_error_out_of_range (st : MasterData) (attr g : Nat)
    (e : Err) (h : st.GetPublicAttribute attr g = .error e) :
    ∃ s, e = .outOfRange s := by
  unfold MasterData.GetPublicAttribute at h
  repeat' split at h
  all_goals simp at h
  all_goals
    subst h
    rename_i heq
    first
      | exact ⟨_, atMap_error_out_of_range _ _ _ _ heq⟩
      | exact publicTargetDisp_error_out_of_range _ _ _ _ heq

theorem getPublicAttribute_not_agentNotFound (st : MasterData) (attr g : Nat) :
    errIsAgentNotFound (st.GetPublicAttribute attr g) = false := by
  cases hp : st.GetPublicAttribute attr g with
  | error e =>
    obtain ⟨s, rfl⟩ := getPublicAttribute_error_out_of_range _ _ _ _ hp
    rfl
  | ok v => rfl

/-- Claim C5: under a well-formed registry (the type index is in range of
    agent_ids_by_types_ and the type has a name in agent_type_to_string_),
    GetAttribute raises AgentNotFound exactly when no agent with the given
    local id and type is registered, and for an existing agent it dispatches
    on IsCritical to the critical-window read (GetCriticalAttribute, a
    pointer into the local critical replica) or to the public read path
    (GetPublicAttribute). -/
theorem get_attribute_agent_not_found_iff (st : MasterData) (attr id type : Nat)
    (hT : type < st.agent_ids_by_types_.length)
    (hname : (lookupEq type st.agent_type_to_string_).isSome) :
    (errIsAgentNotFound (st.GetAttribute attr id type) = true ↔
      (st.agent_ids_by_types_.getD type []).contains id = false) ∧
    ((st.agent_ids_by_types_.getD type []).contains id = true →
      (st.IsCritical attr type = true →
        st.GetAttribute attr id type =
          (st.GetCriticalAttribute attr
            (LocalToGlobalId st.nb_types_ id type)).map (fun loc => (loc, st))) ∧
      (st.IsCritical attr type = false →
        st.GetAttribute attr id type =
          st.GetPublicAttribute attr (LocalToGlobalId st.nb_types_ id type))) := by
  obtain ⟨row, hrow⟩ : ∃ r, st.agent_ids_by_types_[type]? = some r :=
    ⟨_, List.getElem?_eq_getElem hT⟩
  have hda : st.DoesAgentExist id type =
      .ok ((st.agent_ids_by_types_.getD type []).contains id) := by
    simp [MasterData.DoesAgentExist, atVec, List.get?_eq_getElem?, hrow,
      List.getD_eq_getElem?_getD]
  obtain ⟨nm, hnm⟩ := Option.isSome_iff_exists.1 hname
  have key : ∀ b, st.DoesAgentExist id type = .ok b →
      (errIsAgentNotFound (st.GetAttribute attr id type) = true ↔ b = false) ∧
      (b = true →
        (st.IsCritical attr type = true →
          st.GetAttribute attr id type =
            (st.GetCriticalAttribute attr
              (LocalToGlobalId st.nb_types_ id type)).map (fun loc => (loc, st))) ∧
        (st.IsCritical attr type = false →
          st.GetAttribute attr id type =
            st.GetPublicAttribute attr (LocalToGlobalId st.nb_types_ id type))) := by
    intro b hb
    cases b
    · constructor
      · simp [MasterData.GetAttribute, hb, atMap, hnm, errIsAgentNotFound]
      · intro hfalse
        exact absurd hfalse (by simp)
    · constructor
      · cases hcrit : st.IsCritical attr type
        · simp [MasterData.GetAttribute, hb, hcrit,
            getPublicAttribute_not_agentNotFound]
        · cases hcr : st.GetCriticalAttribute attr
              (LocalToGlobalId st.nb_types_ id type) with
          | error e =>
            obtain ⟨s, rfl⟩ := getCriticalAttribute_error_out_of_range _ _ _ _ hcr
            simp [MasterData.GetAttribute, hb, hcrit, hcr, errIsAgentNotFound]
          | ok loc =>
            simp [MasterData.GetAttribute, hb, hcrit, hcr, errIsAgentNotFound]
      · intro _
        constructor
        · intro hcrit
          cases hcr : st.GetCriticalAttribute attr
              (LocalToGlobalId st.nb_types_ id type) <;>
            simp [MasterData.GetAttribute, hb, hcrit, hcr, Except.map]
        · intro hcrit
          simp [MasterData.GetAttribute, hb, hcrit]
  obtain ⟨k1, k2⟩ := key _ hda
  exact ⟨k1, k2⟩

/-- Concrete master for the C5 witness: one type named A with agents 0 and 1,
    attribute 0 public with full catalog entries, attribute 1 critical. -/
def readExample : MasterData :=
  { emptyMaster with
    nb_types_ := 1,
    nb_masters_ := 1,
    agent_ids_by_types_ := [[0, 1]],
    masters_ := [(0, 0), (1, 0)],
    agent_type_to_string_ := [(0, "A")],
    critical_attributes_ := [(0, 1)],
    attributes_sizes_ := [((0, 0), 8), ((0, 1), 4)],
    attributes_MPI_types_ := [((0, 0), 0), ((0, 1), 1)],
    public_attributes_offsets_ := [((0, 0), 0)],
    public_agents_offsets_ := [(0, 0), (1, 8)],
    critical_attributes_offsets_ := [((0, 1), 0)],
    critical_agents_offsets_ := [(0, 0), (1, 4)] }

/-- Witness for C5 on readExample: reading attribute 0 of the absent agent 7
    is the AgentNotFound case, and for the existing agent 1 the critical
    attribute 1 is served from the critical window while the public
    attribute 0 goes to the public read path. -/
theorem get_attribute_agent_not_found_iff_witness :
    (errIsAgentNotFound (readExample.GetAttribute 0 7 0) = true ↔
      (readExample.agent_ids_by_types_.getD 0 []).contains 7 = false) ∧
    (errIsAgentNotFound (readExample.GetAttribute 0 1 0) = true ↔
      (readExample.agent_ids_by_types_.getD 0 []).contains 1 = false) ∧
    (readExample.GetAttribute 1 1 0 =
      (readExample.GetCriticalAttribute 1
        (LocalToGlobalId readExample.nb_types_ 1 0)).map (fun loc => (loc, readExample))) ∧
    (readExample.GetAttribute 0 1 0 =
      readExample.GetPublicAttribute 0 (LocalToGlobalId readExample.nb_types_ 1 0)) := by
  refine ⟨(get_attribute_agent_not_found_iff readExample 0 7 0
      (by decide) (by decide)).1,
    (get_attribute_agent_not_found_iff readExample 0 1 0
      (by decide) (by decide)).1, ?_, ?_⟩
  · exact ((get_attribute_agent_not_found_iff readExample 1 1 0
      (by decide) (by decide)).2 (by decide)).1 (by decide)
  · exact ((get_attribute_agent_not_found_iff readExample 0 1 0
      (by decide) (by decide)).2 (by decide)).2 (by decide)

/-- Coordinator (master 0 of 2) owning agent (0, 0), used to check that the
    C3 failing input passes the coordinator's validation and commits
    locally. -/
def modifyCoordinator : MasterData :=
  { emptyMaster with
    id_ := 0, nb_masters_ := 2, nb_types_ := 1,
    agent_ids_by_types_ := [[0]],
    masters_ := [(0, 0)],
    agents_ := [(0, { attributes := [(0, [0, 0, 0, 0, 0, 0, 0, 0])], received := [] })],
    attributes_sizes_ := [((0, 0), 8)],
    attributes_MPI_types_ := [((0, 0), 0)] }

/-- Follower master (id 1 of 2) in the same cluster: the agent is owned by
    master 0 and this follower holds no local copy of it. -/
def modifyFollowerOwnedByRoot : MasterData :=
  { emptyMaster with
    id_ := 1, nb_masters_ := 2, nb_types_ := 1,
    agent_ids_by_types_ := [[0]],
    masters_ := [(0, 0)],
    attributes_sizes_ := [((0, 0), 8)],
    attributes_MPI_types_ := [((0, 0), 0)] }

/-- Follower master (id 2 of 3) of a cluster in which the agent is owned by
    master 1: master 0 sends the attribute and value only to master 1, so
    this follower receives nothing. -/
def modifyFollowerOwnedByPeer : MasterData :=
  { emptyMaster with
    id_ := 2, nb_masters_ := 3, nb_types_ := 1,
    agent_ids_by_types_ := [[0]],
    masters_ := [(0, 1)],
    attributes_sizes_ := [((0, 0), 8)],
    attributes_MPI_types_ := [((0, 0), 0)] }

/-- Claim C3 (code bug): a validated MODIFY_ATTRIBUTE is committed by the
    coordinator when it owns the agent, but the other masters do not ignore
    the order.  When the owner is master 0, every follower also executes the
    memcpy branch, where agents_.at(recipient_global_id) throws
    std::out_of_range (the follower has no such agent).  When the owner is
    another master r, every follower -- not only r -- executes the receive
    branch, so a follower different from r blocks in an MPI_Recv from master
    0 that is never matched.  The guard on id_ == recipient_master is
    missing in master.cpp:243-254. -/
theorem modify_attribute_followers_do_not_ignore :
    coordinatorModifyAttribute modifyCoordinator 0 0 0 [9, 9, 9, 9, 9, 9, 9, 9] =
      .ok ({ modifyCoordinator with
             agents_ := [(0, { attributes := [(0, [9, 9, 9, 9, 9, 9, 9, 9])],
                               received := [] })] }, none) ∧
    followerModifyAttribute modifyFollowerOwnedByRoot 0 none =
      .crashed "agents_.at" ∧
    followerModifyAttribute modifyFollowerOwnedByPeer 0 none =
      .blockedInRecv := by
  refine ⟨by rfl, by decide, by decide⟩

/-!
The time-step state machine (Master::RunTimeStep and the phases it calls).
The per-step inputs that come from outside one master -- the interactions the
peers send during the exchange and the public-attribute reads the user
Behavior bodies issue -- are passed as an explicit environment.
-/

/-- Per-step environment of one master: the interactions received from the
    peers during SendReceiveInteractions, and the sequence of (global id,
    attribute) public reads the behaviors issue. -/
structure StepEnv where
  incoming : List Interaction
  requests : List (Nat × Nat)

/-- Master::Synchronize (master.cpp:618): MPI_Barrier on MasterComm_,
    recorded in the phase log. -/
def Synchronize (st : MasterData) : MasterData :=
  { st with log := st.log ++ [Phase.barrier] }

/-- Master::UpdateAllPublicAttributes (master.cpp:678): under a lock-all
    epoch on the critical window, the handler threads copy each local
    agent's public record into the public window and put the modified
    critical attributes to every peer.  The window bytes are outside this
    model; the phase occurrence is recorded in the log. -/
def UpdateAllPublicAttributes (st : MasterData) : MasterData :=
  { st with log := st.log ++ [Phase.publish] }

/-- Master::SendReceiveInteractions (master.cpp:692): the all-to-all of
    counts followed by the point-to-point transfers.  The interactions this
    master receives (decided by the peers' outboxes) are appended to
    received_interactions_; afterwards every outbox bucket is cleared. -/
def SendReceiveInteractions (incoming : List Interaction) (st : MasterData) :
    MasterData :=
  { st with
    received_interactions_ := st.received_interactions_ ++ incoming,
    interactions_to_send_ := st.interactions_to_send_.map (fun _ => []),
    log := st.log ++ [Phase.exchange] }

/-- One delivery of Master::DistributeReceivedInteractions' loop:
    agents_.at(LocalToGlobalId(recipient))->ReceiveMessage(inter), which
    appends the interaction to the recipient agent's received list. -/
def receiveMessage (nb_types : Nat) (ags : List (Nat × AgentState))
    (inter : Interaction) : Except Err (List (Nat × AgentState)) :=
  match lookupEq (LocalToGlobalId nb_types inter.recipient_id_ inter.recipient_type_)
      ags with
  | none => .error (.outOfRange "agents_.at")
  | some a =>
    .ok (setAssoc ags
      (LocalToGlobalId nb_types inter.recipient_id_ inter.recipient_type_)
      { a with received := a.received ++ [inter] })

/-- The loop of Master::DistributeReceivedInteractions over the inbox. -/
def deliverAll (nb_types : Nat) :
    List Interaction → List (Nat × AgentState) → Except Err (List (Nat × AgentState))
  | [], ags => .ok ags
  | inter :: rest, ags =>
    match receiveMessage nb_types ags inter with
    | .error e => .error e
    | .ok ags2 => deliverAll nb_types rest ags2

/-- Master::DistributeReceivedInteractions (master.cpp:624): deliver every
    received interaction to its local recipient, then clear the inbox. -/
def DistributeReceivedInteractions (st : MasterData) : Except Err MasterData :=
  match deliverAll st.nb_types_ st.received_interactions_ st.agents_ with
  | .error e => .error e
  | .ok ags =>
    .ok { st with
          agents_ := ags,
          received_interactions_ := [],
          log := st.log ++ [Phase.distribute] }

/-- The first two statements of Master::RunBehaviors (master.cpp:635):
    received_public_attributes_.clear() and
    stored_public_attributes_.clear() (the arena keeps its block: reset, not
    freed).  The ghost fetch log restarts with the step. -/
def clearStepCaches (st : MasterData) : MasterData :=
  { st with received_public_attributes_ := [],
            stored_public_attributes_ := st.stored_public_attributes_.clear,
            fetches := [] }

/-- The public-attribute reads issued during the behavior phase, each
    reaching Master::GetPublicAttribute, executed in the serialized order of
    a single handler thread (K = 1).  The K-threaded interleaved execution
    of the same phase is modelled below by threadStep and runSchedule. -/
def runRequests : List (Nat × Nat) → MasterData → Except Err MasterData
  | [], st => .ok st
  | (g, attr) :: rest, st =>
    match st.GetPublicAttribute attr g with
    | .error e => .error e
    | .ok (_, st2) => runRequests rest st2

/-- Master::RunBehaviors (master.cpp:634): clear the attribute-read cache
    and reset its arena, lock the public window, run the handlers' behavior
    loops (their remote public reads are the request list, serialized as by
    a single handler thread; the interleaved K-thread execution is modelled
    by threadStep and runSchedule below; after each behavior,
    Agent::ResetMessages clears the agent's received list), and unlock. -/
def RunBehaviors (requests : List (Nat × Nat)) (st : MasterData) :
    Except Err MasterData :=
  match runRequests requests (clearStepCaches st) with
  | .error e => .error e
  | .ok st2 =>
    .ok { st2 with
          agents_ := st2.agents_.map (fun ga => (ga.1, { ga.2 with received := [] })),
          log := st2.log ++ [Phase.behaviors] }

/-- Master::RunTimeStep (master.cpp:806): increment step_, then
    UpdateAllPublicAttributes; Synchronize; (MetaEvolution is commented
    out); Synchronize; SendReceiveInteractions; Synchronize;
    DistributeReceivedInteractions; Synchronize; RunBehaviors;
    Synchronize. -/
def RunTimeStep (env : StepEnv) (st : MasterData) : Except Err MasterData :=
  match DistributeReceivedInteractions
      (Synchronize (SendReceiveInteractions env.incoming
        (Synchronize (Synchronize (UpdateAllPublicAttributes
          { st with step_ := st.step_ + 1 }))))) with
  | .error e => .error e
  | .ok st2 =>
    match RunBehaviors env.requests (Synchronize st2) with
    | .error e => .error e
    | .ok st3 => .ok (Synchronize st3)

/-- The loop of Master::RunSimulation: n remaining steps, t steps done. -/
def runTimeSteps (envs : Nat → StepEnv) : Nat → Nat → MasterData → Except Err MasterData
  | 0, _, st => .ok st
  | n + 1, t, st =>
    match RunTimeStep (envs t) st with
    | .error e => .error e
    | .ok st2 => runTimeSteps envs n (t + 1) st2

/-- Master::RunSimulation (master.cpp:174): broadcast the RUN order (control
    plane, no data-state effect) and run period_ time steps. -/
def RunSimulation (envs : Nat → StepEnv) (st : MasterData) : Except Err MasterData :=
  runTimeSteps envs st.period_ 0 st

/-- Master::ChangePeriod (master.cpp:187) on the coordinator: broadcast the
    order, set period_ := new_period, and receive back the broadcast of
    period_ from root (its own value). -/
def ChangePeriod (new_period : Nat) (st : MasterData) : MasterData :=
  { st with period_ := new_period }

/-- The loop of the CLI run command: n remaining RunSimulation calls, k done. -/
def runCommandAux (envs : Nat → Nat → StepEnv) :
    Nat → Nat → MasterData → Except Err MasterData
  | 0, _, st => .ok st
  | n + 1, k, st =>
    match RunSimulation (envs k) st with
    | .error e => .error e
    | .ok st2 => runCommandAux envs n (k + 1) st2

/-- The run command of the CLI front-end (user_interface.cpp:106): with an
    explicit step count n, call master->RunSimulation() n times. -/
def runCommand (envs : Nat → Nat → StepEnv) (n : Nat) (st : MasterData) :
    Except Err MasterData :=
  runCommandAux envs n 0 st

theorem getPublicAttribute_frame (s : MasterData) (a g : Nat) (loc : Loc)
    (s' : MasterData) (h : s.GetPublicAttribute a g = .ok (loc, s')) :
    s'.step_ = s.step_ ∧ s'.period_ = s.period_ ∧ s'.log = s.log ∧
    s'.agents_ = s.agents_ ∧ s'.received_interactions_ = s.received_interactions_ := by
  unfold MasterData.GetPublicAttribute at h
  repeat' split at h
  all_goals simp at h
  all_goals obtain ⟨h1, h2⟩ := h
  all_goals subst h2
  all_goals simp

theorem runRequests_frame (rs : List (Nat × Nat)) (s s' : MasterData)
    (h : runRequests rs s = .ok s') :
    s'.step_ = s.step_ ∧ s'.period_ = s.period_ ∧ s'.log = s.log ∧
    s'.agents_ = s.agents_ ∧ s'.received_interactions_ = s.received_interactions_ := by
  induction rs generalizing s with
  | nil =>
    simp [runRequests] at h
    subst h
    exact ⟨rfl, rfl, rfl, rfl, rfl⟩
  | cons r rest ih =>
    obtain ⟨g, attr⟩ := r
    simp only [runRequests] at h
    split at h
    next e heq => exact absurd h (by simp)
    next loc2 s2 heq =>
      obtain ⟨f1, f2, f3, f4, f5⟩ := getPublicAttribute_frame _ _ _ _ _ heq
      obtain ⟨g1, g2, g3, g4, g5⟩ := ih s2 h
      exact ⟨g1.trans f1, g2.trans f2, g3.trans f3, g4.trans f4, g5.trans f5⟩

theorem distribute_effects (st st' : MasterData)
    (h : DistributeReceivedInteractions st = .ok st') :
    st'.step_ = st.step_ ∧ st'.period_ = st.period_ ∧
    st'.log = st.log ++ [Phase.distribute] := by
  unfold DistributeReceivedInteractions at h
  split at h
  next e heq => exact absurd h (by simp)
  next ags heq =>
    simp at h
    subst h
    simp

theorem runBehaviors_effects (rs : List (Nat × Nat)) (st st' : MasterData)
    (h : RunBehaviors rs st = .ok st') :
    st'.step_ = st.step_ ∧ st'.period_ = st.period_ ∧
    st'.log = st.log ++ [Phase.behaviors] := by
  unfold RunBehaviors at h
  split at h
  next e heq => exact absurd h (by simp)
  next st2 heq =>
    obtain ⟨f1, f2, f3, _, _⟩ := runRequests_frame _ _ _ heq
    simp at h
    subst h
    refine ⟨by simpa [clearStepCaches] using f1, by simpa [clearStepCaches] using f2, ?_⟩
    simp [f3, clearStepCaches]

theorem runTimeStep_effects (env : StepEnv) (st st' : MasterData)
    (h : RunTimeStep env st = .ok st') :
    st'.step_ = st.step_ + 1 ∧ st'.period_ = st.period_ ∧
    st'.log = st.log ++ [Phase.publish, Phase.barrier, Phase.barrier,
      Phase.exchange, Phase.barrier, Phase.distribute, Phase.barrier,
      Phase.behaviors, Phase.barrier] := by
  unfold RunTimeStep at h
  split at h
  next e heq => exact absurd h (by simp)
  next st2 heq =>
    split at h
    next e heq2 => exact absurd h (by simp)
    next st3 heq3 =>
      obtain ⟨d1, d2, d3⟩ := distribute_effects _ _ heq
      obtain ⟨b1, b2, b3⟩ := runBehaviors_effects _ _ _ heq3
      simp at h
      subst h
      simp only [Synchronize, SendReceiveInteractions,
        UpdateAllPublicAttributes] at d1 d2 d3 b1 b2 b3
      refine ⟨?_, ?_, ?_⟩
      · simp [Synchronize, b1, d1]
      · simp [Synchronize, b2, d2]
      · simp [Synchronize, b3, d3]

theorem runTimeSteps_step_count (envs : Nat → StepEnv) (n t : Nat)
    (st st' : MasterData) (h : runTimeSteps envs n t st = .ok st') :
    st'.step_ = st.step_ + n ∧ st'.period_ = st.period_ := by
  induction n generalizing t st with
  | zero =>
    simp [runTimeSteps] at h
    subst h
    exact ⟨rfl, rfl⟩
  | succ n ih =>
    simp only [runTimeSteps] at h
    split at h
    next e heq => exact absurd h (by simp)
    next st2 heq =>
      obtain ⟨e1, e2, _⟩ := runTimeStep_effects _ _ _ heq
      obtain ⟨i1, i2⟩ := ih _ _ h
      constructor
      · rw [i1, e1]
        omega
      · rw [i2, e2]

theorem runCommandAux_step_count (envs : Nat → Nat → StepEnv) (n : Nat) :
    ∀ (k : Nat) (st st' : MasterData), runCommandAux envs n k st = .ok st' →
    st'.step_ = st.step_ + st.period_ * n ∧ st'.period_ = st.period_ := by
  induction n with
  | zero =>
    intro k st st' h
    simp [runCommandAux] at h
    subst h
    exact ⟨by simp, rfl⟩
  | succ n ih =>
    intro k st st' h
    simp only [runCommandAux] at h
    split at h
    next e heq => exact absurd h (by simp)
    next st2 heq =>
      obtain ⟨e1, e2⟩ := runTimeSteps_step_count _ _ _ _ _ heq
      obtain ⟨i1, i2⟩ := ih _ _ _ h
      constructor
      · rw [i1, e1, e2]
        ring_nf
      · rw [i2, e2]

/-- Claim C7: after the coordinator executes ChangePeriod(k) followed by the
    CLI command run with argument n, the time-step counter has advanced by
    exactly k * n: each of the n RunSimulation calls performs period_ = k
    time steps, each of which increments step_ once. -/
theorem set_period_run_advances_k_times_n (envs : Nat → Nat → StepEnv)
    (st st' : MasterData) (k n : Nat) (_hk : 1 ≤ k)
    (h : runCommand envs n (ChangePeriod k st) = .ok st') :
    st'.step_ = st.step_ + k * n := by
  obtain ⟨h1, _⟩ := runCommandAux_step_count envs n 0 (ChangePeriod k st) st' h
  simpa [ChangePeriod] using h1

/-- The environment of the C7 witness run: no incoming interactions and no
    public reads. -/
def quietEnvs : Nat → Nat → StepEnv := fun _ _ => { incoming := [], requests := [] }

/-- The state reached by the C7 witness run. -/
def c7Result : MasterData :=
  (runCommand quietEnvs 3 (ChangePeriod 2 emptyMaster)).toOption.getD emptyMaster

/-- Witness for C7: set_period(2); run(3) advances the step counter by 6. -/
theorem set_period_run_advances_k_times_n_witness :
    1 ≤ 2 ∧ runCommand quietEnvs 3 (ChangePeriod 2 emptyMaster) = .ok c7Result ∧
    c7Result.step_ = emptyMaster.step_ + 2 * 3 :=
  ⟨by decide, by rfl,
   set_period_run_advances_k_times_n quietEnvs emptyMaster c7Result 2 3
     (by decide) (by rfl)⟩

/-- Claim C1 (amended): each time step runs the phases in the order publish
    (UpdateAllPublicAttributes), exchange (SendReceiveInteractions),
    distribute (DistributeReceivedInteractions), behaviors (RunBehaviors),
    with at least one Synchronize barrier between every pair of consecutive
    phases (two between publish and exchange, where the disabled
    MetaEvolution call sits) and one after behaviors. -/
theorem run_time_step_phase_order (env : StepEnv) (st st' : MasterData)
    (h : RunTimeStep env st = .ok st') :
    st'.log = st.log ++ [Phase.publish, Phase.barrier, Phase.barrier,
      Phase.exchange, Phase.barrier, Phase.distribute, Phase.barrier,
      Phase.behaviors, Phase.barrier] :=
  (runTimeStep_effects env st st' h).2.2

/-- The environment of the C1 runs: nothing incoming, no reads. -/
def quietEnv : StepEnv := { incoming := [], requests := [] }

/-- The state after one time step of the C1 runs. -/
def c1Result : MasterData :=
  (RunTimeStep quietEnv emptyMaster).toOption.getD emptyMaster

/-- Counterexample to C1 as stated: in the executed phase sequence of a time
    step, distribute never precedes publish -- the claimed order
    (distribute, publish, exchange, behaviors) is not a subsequence of the
    log, while (publish, exchange, distribute, behaviors) is. -/
theorem run_time_step_claimed_order_counterexample :
    RunTimeStep quietEnv emptyMaster = .ok c1Result ∧
    ¬ ([Phase.distribute, Phase.publish].Sublist c1Result.log) ∧
    ([Phase.publish, Phase.exchange, Phase.distribute, Phase.behaviors].Sublist
      c1Result.log) :=
  ⟨by rfl, by decide, by decide⟩

/-- Witness for the amended C1 on the concrete one-step run. -/
theorem run_time_step_phase_order_witness :
    RunTimeStep quietEnv emptyMaster = .ok c1Result ∧
    c1Result.log = emptyMaster.log ++ [Phase.publish, Phase.barrier,
      Phase.barrier, Phase.exchange, Phase.barrier, Phase.distribute,
      Phase.barrier, Phase.behaviors, Phase.barrier] :=
  ⟨by rfl, run_time_step_phase_order quietEnv emptyMaster c1Result (by rfl)⟩

/-- Number of occurrences of a pair in a list (used to count the MPI_Get
    fetches recorded for one (global id, attribute) key). -/
def countPair : List (Nat × Nat) → (Nat × Nat) → Nat
  | [], _ => 0
  | y :: rest, x => (if y = x then 1 else 0) + countPair rest x

theorem countPair_append (l1 l2 : List (Nat × Nat)) (x : Nat × Nat) :
    countPair (l1 ++ l2) x = countPair l1 x + countPair l2 x := by
  induction l1 with
  | nil => simp [countPair]
  | cons y rest ih => simp [countPair, ih]; omega

theorem getPublicAttribute_cases (s : MasterData) (a g : Nat) (loc : Loc)
    (s' : MasterData) (h : s.GetPublicAttribute a g = .ok (loc, s')) :
    (∃ p, lookupEq (g, a) s.received_public_attributes_ = some p ∧
       s' = s ∧ loc = .heapPtr p) ∨
    (lookupEq (g, a) s.received_public_attributes_ = none ∧ ∃ p,
       loc = .heapPtr p ∧
       s'.received_public_attributes_ =
         setAssoc s.received_public_attributes_ (g, a) p ∧
       s'.fetches = s.fetches ++ [(g, a)]) := by
  unfold MasterData.GetPublicAttribute MasterData.HasReceivedAttribute at h
  repeat' split at h
  all_goals simp at h
  · rename_i location heq
    obtain ⟨h1, h2⟩ := h
    exact Or.inl ⟨location, heq, h2.symm, h1.symm⟩
  · obtain ⟨h1, h2⟩ := h
    subst h2
    right
    refine ⟨by assumption, _, h1.symm, rfl, rfl⟩

theorem getPublicAttribute_cache_hit (s : MasterData) (g a : Nat) (loc : HeapPtr)
    (h : lookupEq (g, a) s.received_public_attributes_ = some loc) :
    s.GetPublicAttribute a g = .ok (.heapPtr loc, s) := by
  unfold MasterData.GetPublicAttribute MasterData.HasReceivedAttribute
  rw [h]

/-- The per-request invariant of the fetch log: a key not in the cache has
    never been fetched this step, and no key has been fetched twice. -/
def FetchInv (s : MasterData) : Prop :=
  ∀ g a, (lookupEq (g, a) s.received_public_attributes_ = none →
            countPair s.fetches (g, a) = 0) ∧
         countPair s.fetches (g, a) ≤ 1

theorem getPublicAttribute_preserves_inv (s : MasterData) (a g : Nat)
    (loc : Loc) (s' : MasterData) (hinv : FetchInv s)
    (h : s.GetPublicAttribute a g = .ok (loc, s')) : FetchInv s' := by
  rcases getPublicAttribute_cases s a g loc s' h with
    ⟨p, _, rfl, _⟩ | ⟨hnone, p, _, hcache, hfetch⟩
  · exact hinv
  · intro g2 a2
    by_cases hk : (g2, a2) = (g, a)
    · injection hk with hg ha
      subst hg
      subst ha
      rw [hcache, hfetch, lookupEq_setAssoc_self, countPair_append]
      have h0 := (hinv g2 a2).1 hnone
      simp [countPair, h0]
    · rw [hcache, hfetch, lookupEq_setAssoc_ne _ _ _ _ hk, countPair_append]
      have := hinv g2 a2
      have hne : (g, a) ≠ (g2, a2) := fun hh => hk hh.symm
      simp [countPair, hne]
      exact this

theorem runRequests_preserves_inv (rs : List (Nat × Nat)) (s s' : MasterData)
    (hinv : FetchInv s) (h : runRequests rs s = .ok s') : FetchInv s' := by
  induction rs generalizing s with
  | nil =>
    simp [runRequests] at h
    subst h
    exact hinv
  | cons r rest ih =>
    obtain ⟨g, attr⟩ := r
    simp only [runRequests] at h
    split at h
    next e heq => exact absurd h (by simp)
    next loc2 s2 heq =>
      exact ih s2 (getPublicAttribute_preserves_inv _ _ _ _ _ hinv heq) h

/-- The at-most-one-fetch bound for the serialized (single handler thread)
    execution of the behavior phase: over any request sequence, the fetch
    log of the step holds each (global id, attribute) at most once. -/
theorem runBehaviors_serialized_at_most_one (st st' : MasterData)
    (rs : List (Nat × Nat)) (h : RunBehaviors rs st = .ok st') :
    ∀ g a, countPair st'.fetches (g, a) ≤ 1 := by
  intro g a
  unfold RunBehaviors at h
  split at h
  next e heq => exact absurd h (by simp)
  next st2 heq =>
    have hinv0 : FetchInv (clearStepCaches st) := by
      intro g2 a2
      exact ⟨fun _ => rfl, by simp [clearStepCaches, countPair]⟩
    have hinv2 := runRequests_preserves_inv _ _ _ hinv0 heq
    have hf : st'.fetches = st2.fetches := by
      simp at h
      subst h
      rfl
    rw [hf]
    exact (hinv2 g a).2

/-!
The interleaved model of the behavior phase.  Master::RunBehaviors spawns
one thread per agent handler (master.cpp:639-645); Master::GetPublicAttribute
is not one critical section: get_if_exists takes and releases a shared lock
on the cache, then custom_heap::allocate runs with no lock at all, set takes
an exclusive lock, and MPI_Get follows.  A thread is therefore interrupted
between the check and the commit, and two threads that both miss for the
same key both execute the commit.  Each thread's call is modelled as two
atomic sections -- the check and the commit -- which is the coarsest
granularity at which the double fetch already occurs; splitting the commit
further only adds interleavings and cannot lower any fetch count, because
only the check consults the cache and only the commit appends a fetch.
-/

/-- The tail of Master::GetPublicAttribute after a get_if_exists miss
    (master.cpp:658-665): look up the owner and the MPI datatype, compute
    the target displacement, take a slot from the (unlocked) scratch arena,
    record the location in the cache under its exclusive lock, and issue
    the MPI_Get.  The source never re-checks the cache here, so a thread
    whose check missed always executes this in full. -/
def missFetch (st : MasterData) (attr recipient : Nat) : Except Err MasterData :=
  match atMap st.masters_ recipient "masters_.at" with
  | .error e => .error e
  | .ok _master_recipient_id =>
    match atMap st.attributes_MPI_types_
        (GlobalToLocalType st.nb_types_ recipient, attr)
        "attributes_MPI_types_.at" with
    | .error e => .error e
    | .ok _MPI_attr_type =>
      match st.PublicTargetDisp recipient attr with
      | .error e => .error e
      | .ok _target_disp =>
        match atMap st.attributes_sizes_
            (GlobalToLocalType st.nb_types_ recipient, attr)
            "attributes_sizes_.at" with
        | .error e => .error e
        | .ok sz =>
          .ok { st with
                stored_public_attributes_ :=
                  (st.stored_public_attributes_.allocate sz).2,
                received_public_attributes_ :=
                  setAssoc st.received_public_attributes_
                    (recipient, attr) (st.stored_public_attributes_.allocate sz).1,
                fetches := st.fetches ++ [(recipient, attr)] }

theorem getPublicAttribute_miss_state (s : MasterData) (a g : Nat) (loc : Loc)
    (s2 : MasterData)
    (hmiss : lookupEq (g, a) s.received_public_attributes_ = none)
    (h : s.GetPublicAttribute a g = .ok (loc, s2)) :
    missFetch s a g = .ok s2 := by
  unfold MasterData.GetPublicAttribute MasterData.HasReceivedAttribute at h
  rw [hmiss] at h
  unfold missFetch
  cases h1 : atMap s.masters_ g "masters_.at" with
  | error e => rw [h1] at h; simp at h
  | ok m =>
    rw [h1] at h
    cases h2 : atMap s.attributes_MPI_types_ (GlobalToLocalType s.nb_types_ g, a)
        "attributes_MPI_types_.at" with
    | error e => rw [h2] at h; simp at h
    | ok d =>
      rw [h2] at h
      cases h3 : s.PublicTargetDisp g a with
      | error e => rw [h3] at h; simp at h
      | ok disp =>
        rw [h3] at h
        cases h4 : atMap s.attributes_sizes_ (GlobalToLocalType s.nb_types_ g, a)
            "attributes_sizes_.at" with
        | error e => rw [h4] at h; simp at h
        | ok sz =>
          rw [h4] at h
          simp at h
          obtain ⟨h5, h6⟩ := h
          subst h6
          rfl

/-- A behavior thread of the interleaved phase: the requests it still has
    to issue, and, between the two critical sections of a cache-missing
    call, the request whose check just missed. -/
structure ThreadState where
  pending : Option (Nat × Nat)
  todo : List (Nat × Nat)
deriving DecidableEq, Repr

/-- One atomic step of a behavior thread: the commit of a call whose check
    missed (allocate, record, MPI_Get), or the shared-locked cache check of
    its next request -- a hit completes the call with the cached location, a
    miss leaves the commit pending, and other threads may run in between.
    A thread with nothing left does nothing.  The third component reports
    the fetch this step issued, if any. -/
def threadStep (st : MasterData) (ts : ThreadState) :
    Except Err (MasterData × ThreadState × Option (Nat × Nat)) :=
  match ts.pending with
  | some (g, a) =>
    match missFetch st a g with
    | .error e => .error e
    | .ok st2 => .ok (st2, { ts with pending := none }, some (g, a))
  | none =>
    match ts.todo with
    | [] => .ok (st, ts, none)
    | (g, a) :: rest =>
      match lookupEq (g, a) st.received_public_attributes_ with
      | some _ => .ok (st, { ts with todo := rest }, none)
      | none => .ok (st, { pending := some (g, a), todo := rest }, none)

/-- Ghost per-thread attribution of a fetch. -/
def optFetchLog (tid : Nat) : Option (Nat × Nat) → List (Nat × Nat × Nat)
  | some (g, a) => [(tid, g, a)]
  | none => []

/-- Run a schedule (the sequence of thread indices the OS picks) over the
    thread pool, accumulating the ghost per-thread fetch log; a schedule
    entry naming no thread is skipped. -/
def runSchedule : List Nat → MasterData → List ThreadState →
    List (Nat × Nat × Nat) →
    Except Err (MasterData × List ThreadState × List (Nat × Nat × Nat))
  | [], st, threads, tlog => .ok (st, threads, tlog)
  | tid :: rest, st, threads, tlog =>
    match threads[tid]? with
    | none => runSchedule rest st threads tlog
    | some ts =>
      match threadStep st ts with
      | .error e => .error e
      | .ok (st2, ts2, f) =>
        runSchedule rest st2 (threads.set tid ts2) (tlog ++ optFetchLog tid f)

/-- Occurrences of a (thread id, key) pair in the ghost per-thread log. -/
def countTagged : List (Nat × Nat × Nat) → Nat → (Nat × Nat) → Nat
  | [], _, _ => 0
  | (tid, g, a) :: rest, t, x =>
    (if tid = t ∧ (g, a) = x then 1 else 0) + countTagged rest t x

theorem countTagged_append (l1 l2 : List (Nat × Nat × Nat)) (t : Nat)
    (x : Nat × Nat) :
    countTagged (l1 ++ l2) t x = countTagged l1 t x + countTagged l2 t x := by
  induction l1 with
  | nil => simp [countTagged]
  | cons y rest ih =>
    obtain ⟨tid, g, a⟩ := y
    simp [countTagged, ih]
    omega

theorem lookupEq_setAssoc_ne_none {κ ν : Type} [DecidableEq κ]
    (m : List (κ × ν)) (k k' : κ) (v : ν) (h : lookupEq k' m ≠ none) :
    lookupEq k' (setAssoc m k v) ≠ none := by
  by_cases hk : k' = k
  · subst hk
    rw [lookupEq_setAssoc_self]
    simp
  · rw [lookupEq_setAssoc_ne _ _ _ _ hk]
    exact h

theorem missFetch_cache (st : MasterData) (a g : Nat) (st2 : MasterData)
    (h : missFetch st a g = .ok st2) :
    ∃ p, st2.received_public_attributes_ =
      setAssoc st.received_public_attributes_ (g, a) p := by
  unfold missFetch at h
  repeat' split at h
  all_goals simp at h
  subst h
  exact ⟨_, rfl⟩

/-- The invariant of the interleaved phase: no thread has fetched a key
    twice, a fetched key is in the cache, and a thread between check and
    commit has not yet fetched the pending key. -/
def ThreadInv (st : MasterData) (threads : List ThreadState)
    (tlog : List (Nat × Nat × Nat)) : Prop :=
  (∀ tid g a, countTagged tlog tid (g, a) ≤ 1) ∧
  (∀ tid g a, 1 ≤ countTagged tlog tid (g, a) →
    lookupEq (g, a) st.received_public_attributes_ ≠ none) ∧
  (∀ tid ts g a, threads[tid]? = some ts → ts.pending = some (g, a) →
    countTagged tlog tid (g, a) = 0)

theorem threadStep_preserves_inv (st : MasterData) (threads : List ThreadState)
    (tlog : List (Nat × Nat × Nat)) (tid : Nat) (ts ts2 : ThreadState)
    (st2 : MasterData) (f : Option (Nat × Nat))
    (hget : threads[tid]? = some ts)
    (hstep : threadStep st ts = .ok (st2, ts2, f))
    (hinv : ThreadInv st threads tlog) :
    ThreadInv st2 (threads.set tid ts2) (tlog ++ optFetchLog tid f) := by
  obtain ⟨inv1, inv2, inv3⟩ := hinv
  have htid : tid < threads.length := (List.getElem?_eq_some_iff.1 hget).1
  unfold threadStep at hstep
  split at hstep
  next g a hpend =>
    split at hstep
    next e heq => exact absurd hstep (by simp)
    next stM heq =>
      simp at hstep
      obtain ⟨rfl, rfl, rfl⟩ := hstep
      obtain ⟨p, hcache⟩ := missFetch_cache _ _ _ _ heq
      have hzero : countTagged tlog tid (g, a) = 0 := inv3 tid ts g a hget hpend
      refine ⟨?_, ?_, ?_⟩
      · intro tid' g' a'
        rw [countTagged_append]
        by_cases hc : tid = tid' ∧ (g, a) = (g', a')
        · obtain ⟨rfl, hpair⟩ := hc
          injection hpair with hg ha
          subst hg
          subst ha
          simp [optFetchLog, countTagged, hzero]
        · have : countTagged (optFetchLog tid (some (g, a))) tid' (g', a') = 0 := by
            simp only [optFetchLog, countTagged]
            rw [if_neg hc]
          rw [this]
          simpa using inv1 tid' g' a'
      · intro tid' g' a' hcnt
        rw [hcache]
        by_cases hc : (g', a') = (g, a)
        · rw [hc, lookupEq_setAssoc_self]
          simp
        · apply lookupEq_setAssoc_ne_none
          rw [countTagged_append] at hcnt
          have hone : countTagged (optFetchLog tid (some (g, a))) tid' (g', a') = 0 := by
            simp [optFetchLog, countTagged]
            intro _ hg ha
            exact absurd (by rw [hg, ha]) (fun hh => hc hh)
          rw [hone] at hcnt
          exact inv2 tid' g' a' (by omega)
      · intro tid' ts' g' a' hget' hpend'
        by_cases ht' : tid' = tid
        · subst ht'
          rw [List.getElem?_set_self htid] at hget'
          obtain rfl : ({ ts with pending := none } : ThreadState) = ts' :=
            Option.some.inj hget'
          simp at hpend'
        · rw [List.getElem?_set_ne (fun hh => ht' hh.symm)] at hget'
          rw [countTagged_append]
          have h0 := inv3 tid' ts' g' a' hget' hpend'
          have h1 : countTagged (optFetchLog tid (some (g, a))) tid' (g', a') = 0 := by
            simp [optFetchLog, countTagged]
            intro hh
            exact absurd hh.symm ht'
          omega
  next hpend =>
    split at hstep
    next htodo =>
      simp at hstep
      obtain ⟨rfl, rfl, rfl⟩ := hstep
      refine ⟨?_, ?_, ?_⟩
      · intro tid' g' a'
        simpa [optFetchLog] using inv1 tid' g' a'
      · intro tid' g' a' hcnt
        simp [optFetchLog] at hcnt
        exact inv2 tid' g' a' hcnt
      · intro tid' ts' g' a' hget' hpend'
        by_cases ht' : tid' = tid
        · subst ht'
          rw [List.getElem?_set_self htid] at hget'
          obtain rfl : ts = ts' := Option.some.inj hget'
          rw [hpend] at hpend'
          exact absurd hpend' (by simp)
        · rw [List.getElem?_set_ne (fun hh => ht' hh.symm)] at hget'
          simpa [optFetchLog] using inv3 tid' ts' g' a' hget' hpend'
    next g a rest htodo =>
      split at hstep
      next p hlook =>
        simp at hstep
        obtain ⟨rfl, rfl, rfl⟩ := hstep
        refine ⟨?_, ?_, ?_⟩
        · intro tid' g' a'
          simpa [optFetchLog] using inv1 tid' g' a'
        · intro tid' g' a' hcnt
          simp [optFetchLog] at hcnt
          exact inv2 tid' g' a' hcnt
        · intro tid' ts' g' a' hget' hpend'
          by_cases ht' : tid' = tid
          · subst ht'
            rw [List.getElem?_set_self htid] at hget'
            obtain rfl : ({ ts with todo := rest } : ThreadState) = ts' :=
              Option.some.inj hget'
            simp [hpend] at hpend'
          · rw [List.getElem?_set_ne (fun hh => ht' hh.symm)] at hget'
            simpa [optFetchLog] using inv3 tid' ts' g' a' hget' hpend'
      next hlook =>
        simp at hstep
        obtain ⟨rfl, rfl, rfl⟩ := hstep
        refine ⟨?_, ?_, ?_⟩
        · intro tid' g' a'
          simpa [optFetchLog] using inv1 tid' g' a'
        · intro tid' g' a' hcnt
          simp [optFetchLog] at hcnt
          exact inv2 tid' g' a' hcnt
        · intro tid' ts' g' a' hget' hpend'
          by_cases ht' : tid' = tid
          · subst ht'
            rw [List.getElem?_set_self htid] at hget'
            obtain rfl : ({ pending := some (g, a), todo := rest } : ThreadState) = ts' :=
              Option.some.inj hget'
            simp at hpend'
            obtain ⟨rfl, rfl⟩ := hpend'
            have hz : ¬ 1 ≤ countTagged tlog tid' (g, a) := by
              intro hge
              exact inv2 tid' g a hge hlook
            simp [optFetchLog]
            omega
          · rw [List.getElem?_set_ne (fun hh => ht' hh.symm)] at hget'
            simpa [optFetchLog] using inv3 tid' ts' g' a' hget' hpend'

theorem runSchedule_preserves_inv (sched : List Nat) :
    ∀ (st : MasterData) (threads : List ThreadState)
      (tlog : List (Nat × Nat × Nat)) (st' : MasterData)
      (threads' : List ThreadState) (tlog' : List (Nat × Nat × Nat)),
    ThreadInv st threads tlog →
    runSchedule sched st threads tlog = .ok (st', threads', tlog') →
    ThreadInv st' threads' tlog' := by
  induction sched with
  | nil =>
    intro st threads tlog st' threads' tlog' hinv h
    simp [runSchedule] at h
    obtain ⟨rfl, rfl, rfl⟩ := h
    exact hinv
  | cons tid rest ih =>
    intro st threads tlog st' threads' tlog' hinv h
    simp only [runSchedule] at h
    split at h
    next hnone => exact ih _ _ _ _ _ _ hinv h
    next ts hts =>
      split at h
      next e heq => exact absurd h (by simp)
      next st2 ts2 f heq =>
        exact ih _ _ _ _ _ _
          (threadStep_preserves_inv _ _ _ _ _ _ _ _ hts heq hinv) h

/-- Claim C2 (amended): within one step, each behavior thread issues at most
    one fetch per (global id, attribute) -- proved over every interleaving
    of the thread pool -- and the per-step at-most-one bound as originally
    stated holds for the serialized single-thread execution; a call finding
    the key cached returns the cached location without fetching, a call
    missing the cache records the freshly allocated location and issues one
    fetch, and the cache and its arena are cleared (the arena reset, not
    freed) at the start of the step before any behavior runs. -/
theorem public_read_cache_fetch_bounds (st st' : MasterData)
    (threads threads' : List ThreadState) (sched : List Nat)
    (tlog : List (Nat × Nat × Nat))
    (hrun : runSchedule sched (clearStepCaches st) threads [] =
      .ok (st', threads', tlog)) :
    (∀ tid g a, countTagged tlog tid (g, a) ≤ 1) ∧
    (∀ (rs : List (Nat × Nat)) (s1 s1' : MasterData),
      RunBehaviors rs s1 = .ok s1' → ∀ g a, countPair s1'.fetches (g, a) ≤ 1) ∧
    ((clearStepCaches st).received_public_attributes_ = [] ∧
     (clearStepCaches st).stored_public_attributes_.size_ = 0 ∧
     (clearStepCaches st).stored_public_attributes_.capacity_ =
       st.stored_public_attributes_.capacity_) ∧
    (∀ (s : MasterData) (g a : Nat) (loc : HeapPtr),
      lookupEq (g, a) s.received_public_attributes_ = some loc →
      s.GetPublicAttribute a g = .ok (.heapPtr loc, s)) ∧
    (∀ (s s2 : MasterData) (g a : Nat) (loc : Loc),
      lookupEq (g, a) s.received_public_attributes_ = none →
      s.GetPublicAttribute a g = .ok (loc, s2) →
      (∃ p, loc = .heapPtr p ∧
        lookupEq (g, a) s2.received_public_attributes_ = some p) ∧
      s2.fetches = s.fetches ++ [(g, a)]) := by
  refine ⟨?_, fun rs s1 s1' hh => runBehaviors_serialized_at_most_one s1 s1' rs hh,
    ⟨rfl, rfl, rfl⟩, getPublicAttribute_cache_hit, ?_⟩
  · have hinv0 : ThreadInv (clearStepCaches st) threads [] := by
      refine ⟨fun _ _ _ => by simp [countTagged], ?_, fun _ _ _ _ _ _ => rfl⟩
      intro tid g a hcnt
      simp [countTagged] at hcnt
    exact (runSchedule_preserves_inv sched _ _ _ _ _ _ hinv0 hrun).1
  · intro s s2 g a loc hnone hget
    rcases getPublicAttribute_cases s a g loc s2 hget with
      ⟨p, hsome, _, _⟩ | ⟨_, p, h1, hcache, hfetch⟩
    · rw [hnone] at hsome
      exact absurd hsome (by simp)
    · exact ⟨⟨p, h1, by rw [hcache, lookupEq_setAssoc_self]⟩, hfetch⟩

/-- The two-thread pool of the C2 race: each thread's behavior reads
    attribute 0 of the remote agent with global id 1 once. -/
def raceThreads : List ThreadState :=
  [{ pending := none, todo := [(1, 0)] }, { pending := none, todo := [(1, 0)] }]

/-- The outcome of the racing schedule 0, 1, 0, 1 on readExample: both
    checks run before either commit. -/
def raceOutcome : MasterData × List ThreadState × List (Nat × Nat × Nat) :=
  (runSchedule [0, 1, 0, 1] (clearStepCaches readExample) raceThreads
    []).toOption.getD (readExample, [], [])

/-- Counterexample to C2 as stated: under the schedule in which both
    threads' get_if_exists checks miss before either commit runs, the step
    issues two MPI_Get fetches for the single key (1, 0) -- one per thread
    -- because the check and the insertion are separate critical sections
    and the commit never re-checks the cache. -/
theorem public_read_cache_race_counterexample :
    runSchedule [0, 1, 0, 1] (clearStepCaches readExample) raceThreads [] =
      .ok raceOutcome ∧
    countPair raceOutcome.1.fetches (1, 0) = 2 ∧
    countTagged raceOutcome.2.2 0 (1, 0) = 1 ∧
    countTagged raceOutcome.2.2 1 (1, 0) = 1 :=
  ⟨by rfl, by decide, by decide, by decide⟩

/-- Witness for the amended C2 at the concrete racing run: the per-thread
    fetch counts it yields are at most one. -/
theorem public_read_cache_fetch_bounds_witness :
    runSchedule [0, 1, 0, 1] (clearStepCaches readExample) raceThreads [] =
      .ok raceOutcome ∧
    countTagged raceOutcome.2.2 0 (1, 0) ≤ 1 ∧
    countTagged raceOutcome.2.2 1 (1, 0) ≤ 1 := by
  have hrun : runSchedule [0, 1, 0, 1] (clearStepCaches readExample) raceThreads [] =
      .ok (raceOutcome.1, raceOutcome.2.1, raceOutcome.2.2) := by rfl
  have hb := (public_read_cache_fetch_bounds readExample raceOutcome.1
    raceThreads raceOutcome.2.1 [0, 1, 0, 1] raceOutcome.2.2 hrun).1
  exact ⟨by rfl, hb 0 1 0, hb 1 1 0⟩

/-!
Window initialization (Master::InitializeWindows, master.cpp:534).
-/

/-- Sorted insertion into a list of ids. -/
def insertSorted (x : Nat) : List Nat → List Nat
  | [] => [x]
  | y :: ys => if x ≤ y then x :: y :: ys else y :: insertSorted x ys

/-- Insertion sort, modelling the std::sort of the agent-id vector at the
    top of Master::InitializeWindows (line 538): both produce the unique
    sorted permutation, and the ids are distinct. -/
def sortNat : List Nat → List Nat
  | [] => []
  | x :: xs => insertSorted x (sortNat xs)

/-- std::set insertion (ordered, no duplicates), modelling
    agent_ids_by_types_.at(type).insert(id). -/
def setInsert (l : List Nat) (x : Nat) : List Nat :=
  if l.contains x then l else insertSorted x l

/-- What Master::InitializeWindows computes: maximal_ids_,
    agent_ids_by_types_, the two per-agent offset maps, the per-master used
    counters of the public windows, and the critical-window size. -/
structure WindowLayout where
  maximal_ids : List Nat
  agent_ids_by_types : List (List Nat)
  public_agents_offsets : List (Nat × Nat)
  critical_agents_offsets : List (Nat × Nat)
  publicUsed : List Nat
  criticalSize : Nat
deriving DecidableEq, Repr

/-- The loop of Master::InitializeWindows (lines 553-563) over the sorted
    agent ids: register the id under its type, bump the type's maximal id,
    record the agent's public offset as the owner's current used counter and
    its critical offset as the current critical size, then advance both by
    the type's public and critical record sizes. -/
def windowLoop (nb_types : Nat) (masters : List (Nat × Nat))
    (pubSizes critSizes : List (Nat × Nat)) :
    List Nat → WindowLayout → Except Err WindowLayout
  | [], acc => .ok acc
  | gid :: rest, acc =>
    match atVec acc.agent_ids_by_types (GlobalToLocalType nb_types gid)
        "agent_ids_by_types_.at" with
    | .error e => .error e
    | .ok s =>
      match atVec acc.maximal_ids (GlobalToLocalType nb_types gid)
          "maximal_ids_.at" with
      | .error e => .error e
      | .ok mid =>
        match atMap masters gid "masters_.at" with
        | .error e => .error e
        | .ok master_id =>
          match atVec acc.publicUsed master_id "PublicWindowsDescription.at" with
          | .error e => .error e
          | .ok used =>
            match atMap pubSizes (GlobalToLocalType nb_types gid)
                "public_attributes_struct_sizes_.at" with
            | .error e => .error e
            | .ok ps =>
              match atMap critSizes (GlobalToLocalType nb_types gid)
                  "critical_attributes_struct_sizes_.at" with
              | .error e => .error e
              | .ok cs =>
                windowLoop nb_types masters pubSizes critSizes rest
                  { maximal_ids :=
                      acc.maximal_ids.set (GlobalToLocalType nb_types gid)
                        (max mid (GlobalToLocalId nb_types gid + 1)),
                    agent_ids_by_types :=
                      acc.agent_ids_by_types.set (GlobalToLocalType nb_types gid)
                        (setInsert s (GlobalToLocalId nb_types gid)),
                    public_agents_offsets :=
                      insertNew acc.public_agents_offsets gid used,
                    critical_agents_offsets :=
                      insertNew acc.critical_agents_offsets gid acc.criticalSize,
                    publicUsed := acc.publicUsed.set master_id (used + ps),
                    criticalSize := acc.criticalSize + cs }

/-- Master::InitializeWindows (master.cpp:534), named InitWindows here:
    sort the agent ids so that the following operations are the same on all
    masters, reset the window descriptions, maximal_ids_ and
    agent_ids_by_types_, and run the loop filling the offset maps.  The MPI
    window allocation that follows (2 * max_public_used and
    2 * critical_size bytes) reserves memory and is outside the model. -/
def InitWindows (st : MasterData) (agent_ids : List Nat) : Except Err WindowLayout :=
  windowLoop st.nb_types_ st.masters_ st.public_attributes_struct_sizes_
    st.critical_attributes_struct_sizes_ (sortNat agent_ids)
    { maximal_ids := List.replicate st.nb_types_ 0,
      agent_ids_by_types := List.replicate st.nb_types_ [],
      public_agents_offsets := [],
      critical_agents_offsets := [],
      publicUsed := List.replicate st.nb_masters_ 0,
      criticalSize := 0 }

/-- Claim C8: two masters running window initialization with the same agent
    ids, the same agent-to-master assignment and the same per-type public
    and critical record sizes compute identical public-offset and identical
    critical-offset maps, whatever their own ids and other state are --
    InitWindows reads nothing else of the master. -/
theorem init_windows_offsets_symmetric (st1 st2 : MasterData)
    (agent_ids : List Nat)
    (hnt : st1.nb_types_ = st2.nb_types_)
    (hnm : st1.nb_masters_ = st2.nb_masters_)
    (hma : st1.masters_ = st2.masters_)
    (hps : st1.public_attributes_struct_sizes_ = st2.public_attributes_struct_sizes_)
    (hcs : st1.critical_attributes_struct_sizes_ =
      st2.critical_attributes_struct_sizes_) :
    (InitWindows st1 agent_ids).map (fun l => l.public_agents_offsets) =
      (InitWindows st2 agent_ids).map (fun l => l.public_agents_offsets) ∧
    (InitWindows st1 agent_ids).map (fun l => l.critical_agents_offsets) =
      (InitWindows st2 agent_ids).map (fun l => l.critical_agents_offsets) := by
  have key : InitWindows st1 agent_ids = InitWindows st2 agent_ids := by
    unfold InitWindows
    rw [hnt, hnm, hma, hps, hcs]
  rw [key]
  exact ⟨rfl, rfl⟩

/-- First master of the C8 witness pair. -/
def initWitnessA : MasterData :=
  { emptyMaster with
    id_ := 0, nb_masters_ := 2, nb_types_ := 2,
    masters_ := [(0, 0), (1, 1), (2, 0)],
    public_attributes_struct_sizes_ := [(0, 8), (1, 16)],
    critical_attributes_struct_sizes_ := [(0, 4), (1, 0)] }

/-- Second master of the C8 witness pair: same catalog inputs, different
    identity and unrelated state. -/
def initWitnessB : MasterData :=
  { initWitnessA with
    id_ := 1, step_ := 42, warnings := 7,
    agents_ := [(0, { attributes := [], received := [] })] }

/-- Witness for C8 on the pair (initWitnessA, initWitnessB) and the unsorted
    id vector [2, 0, 1]. -/
theorem init_windows_offsets_symmetric_witness :
    (InitWindows initWitnessA [2, 0, 1]).map (fun l => l.public_agents_offsets) =
      (InitWindows initWitnessB [2, 0, 1]).map (fun l => l.public_agents_offsets) ∧
    (InitWindows initWitnessA [2, 0, 1]).map (fun l => l.critical_agents_offsets) =
      (InitWindows initWitnessB [2, 0, 1]).map (fun l => l.critical_agents_offsets) :=
  init_windows_offsets_symmetric initWitnessA initWitnessB [2, 0, 1]
    rfl rfl rfl rfl rfl

end Assasim
